import Mathlib

/-!
Verification of the DocumentExtractor API client
(`src/documentextractor_client/client.py`).

The development shallowly embeds the request dispatcher (`_request`,
lines 45-96), the error classification it performs (lines 62-92), file
upload (`upload_file`, lines 103-125) and run-result retrieval
(`get_workflow_run_results`, lines 173-205).  The HTTP transport
(`requests`) is modelled by an explicit outcome function supplied to each
operation; a `Response` record carries the status code, the body as text,
the body as raw bytes, and the result of JSON-decoding the body.
-/

/-- Python values as produced by JSON decoding (`json.loads` /
`response.json()`), together with the dictionaries the client builds.
`Py.none` is Python `None`. -/
inductive Py where
| none : Py
| bool (b : Bool) : Py
| int (n : Int) : Py
| str (s : String) : Py
| list (xs : List Py) : Py
| dict (kvs : List (String × Py)) : Py

/-- Python truthiness (`bool(v)`) for the values of `Py`. -/
def Py.truthy : Py → Bool
| .none => false
| .bool b => b
| .int n => n != 0
| .str s => !s.isEmpty
| .list xs => !xs.isEmpty
| .dict kvs => !kvs.isEmpty

/-- Python `isinstance(v, dict)`. -/
def Py.isDict : Py → Bool
| .dict _ => true
| _ => false

/-- Python `isinstance(v, str)`.  Both a JSON-decoded string body and a raw
text body are Python `str` values, so both are `Py.str` here. -/
def Py.isStr : Py → Bool
| .str _ => true
| _ => false

/-- Python `len(v)` for string values (only applied under an `isStr` guard
in the source, so other values are given length 0). -/
def Py.strLen : Py → Nat
| .str s => s.length
| _ => 0

/-- The underlying string of a `Py.str` value (only read under an `isStr`
guard in the source). -/
def Py.asStr : Py → String
| .str s => s
| _ => ""

mutual

/-- Python `repr(v)`.  Escaping of quotes inside strings is not modelled;
no claim inspects a repr of a string containing a quote. -/
def Py.pyRepr : Py → String
| .none => "None"
| .bool true => "True"
| .bool false => "False"
| .int n => toString n
| .str s => "\x27" ++ s ++ "\x27"
| .list xs => "[" ++ pyReprList xs ++ "]"
| .dict kvs => "\x7b" ++ pyReprDict kvs ++ "\x7d"

/-- Comma-separated reprs of the elements of a Python list. -/
def pyReprList : List Py → String
| [] => ""
| [x] => Py.pyRepr x
| x :: xs => Py.pyRepr x ++ ", " ++ pyReprList xs

/-- Comma-separated `'key': repr` entries of a Python dict. -/
def pyReprDict : List (String × Py) → String
| [] => ""
| [(k, v)] => "\x27" ++ k ++ "\x27: " ++ Py.pyRepr v
| (k, v) :: t => "\x27" ++ k ++ "\x27: " ++ Py.pyRepr v ++ ", " ++ pyReprDict t

end

/-- Python `str(v)` as used by f-string interpolation: a string formats to
itself, every other value to its repr. -/
def Py.format : Py → String
| .str s => s
| v => v.pyRepr

/-- Lookup in an association list, first binding wins — the behaviour of
Python dict lookup once dictionaries are modelled as key-unique
association lists. -/
def lookupKey {α : Type} : List (String × α) → String → Option α
| [], _ => Option.none
| (k', v) :: t, k => if k' = k then Option.some v else lookupKey t k

/-- Python `dict.get(key)` on a dict value; `None` when absent or when the
receiver is not a dict (only applied under an `isDict` guard). -/
def Py.get (v : Py) (k : String) : Py :=
  match v with
  | .dict kvs => (lookupKey kvs k).getD .none
  | _ => .none

/-- A Python string-valued dictionary (headers, query parameters) as an
association list in insertion order. -/
abbrev HDict := List (String × String)

/-- Python `d[k] = v`: replace the binding in place if the key is present,
append it otherwise. -/
def dictSet : HDict → String → String → HDict
| [], k, v => [(k, v)]
| (k', v') :: t, k, v => if k' = k then (k, v) :: t else (k', v') :: dictSet t k v

/-- Python `d.update(o)`: set each binding of `o` in order. -/
def dictUpdate (d : HDict) (o : HDict) : HDict :=
  o.foldl (fun acc kv => dictSet acc kv.1 kv.2) d

/-- The client's configured state (`DocumentExtractorAPIClient.__init__`,
client.py lines 31-43). -/
structure Client where
  root_url : String
  api_key : String
  headers : HDict

/-- `DocumentExtractorAPIClient(root_url, api_key)`: trailing slashes are
stripped from the root URL and the base header dict is built (client.py
lines 38-43). -/
def mkClient (root_url api_key : String) : Client :=
  { root_url := root_url.dropRightWhile (fun c => c == '/'),
    api_key := api_key,
    headers := [("Authorization", "Bearer " ++ api_key),
                ("Accept", "application/json")] }

/-- An HTTP response as the `requests` library presents it: `text` is the
body decoded as text (`response.text`), `content` the raw body bytes
(`response.content`), and `jsonResult` the result of `response.json()` —
`none` models a `JSONDecodeError`. -/
structure Response where
  status_code : Nat
  text : String
  content : List Nat
  jsonResult : Option Py

/-- The arguments of one `requests.request(...)` invocation as the
dispatcher builds them: method, absolute URL, merged headers, query
parameters, optional multipart file `(filename, bytes, mime-type)` and
optional JSON body. -/
structure RequestArgs where
  method : String
  url : String
  headers : HDict
  params : HDict
  files : Option (String × List Nat × String)
  jsonBody : Option Py

/-- Outcome of one network round-trip: either a response came back, or a
transport-level `requests.exceptions.RequestException` (DNS, connection
refused, timeout) with no response at all. -/
inductive Outcome where
| response (r : Response) : Outcome
| requestException (emsg : String) : Outcome

/-- The client's typed error taxonomy.  The exception classes live in
`documentextractor_client/exceptions.py` (imported by `client.py` lines
18-24); each constructor carries exactly the arguments `client.py` passes
at the corresponding `raise` site. -/
inductive APIError where
| authentication (details : Py) : APIError
| forbidden (details : Py) : APIError
| clientRequest (message : String) (status_code : Nat) (details : Py) : APIError
| serverError (message : String) (status_code : Nat) (details : Py) : APIError
| generic (message : String) (status_code : Option Nat) (details : Py) : APIError

/-- The `details` payload carried by a typed error. -/
def APIError.details : APIError → Py
| .authentication d => d
| .forbidden d => d
| .clientRequest _ _ d => d
| .serverError _ _ d => d
| .generic _ _ d => d

/-- What `_request` returns on success: the JSON-decoded body (with
`Py.none` for a 204 response) or the raw response handle when
`parse_json` is `False`. -/
inductive RetVal where
| py (v : Py) : RetVal
| raw (r : Response) : RetVal

/-- Python exceptions surfaced by the endpoint methods: `ValueError`
(including pydantic `ValidationError`, which subclasses it), `TypeError`,
`OSError` from `open`, or one of the client's typed API errors. -/
inductive PyError where
| valueError (msg : String) : PyError
| typeError (msg : String) : PyError
| osError (msg : String) : PyError
| apiError (e : APIError) : PyError

/-- Best-effort parsing of an error-response body (client.py lines 63-71):
the JSON-decoded body when it decodes, the raw text when it does not,
`None` when there is no response. -/
def errorDetailsOf : Option Response → Py
| Option.none => .none
| Option.some r =>
  match r.jsonResult with
  | Option.some v => v
  | Option.none => .str r.text

/-- The human-readable message built for a 4xx `ClientRequestError`
(client.py lines 79-83): the `detail` field when the details are a dict
with a truthy `detail`, the details themselves when they are a string of
fewer than 100 characters, and the bare generic form otherwise. -/
def clientErrorMsg (status_code : Nat) (error_details : Py) : String :=
  if (error_details.truthy && error_details.isDict
      && (error_details.get "detail").truthy) = true then
    "Client error " ++ toString status_code ++ ": "
      ++ (error_details.get "detail").format
  else if (error_details.isStr && decide (error_details.strLen < 100)) = true then
    "Client error " ++ toString status_code ++ ": " ++ error_details.asStr
  else
    "Client error " ++ toString status_code

/-- The status-code fragment of the fallback message (client.py line 91):
the code when it is truthy, the word Unknown otherwise. -/
def httpStatusStr : Option Nat → String
| Option.some s => if s ≠ 0 then toString s else "Unknown"
| Option.none => "Unknown"

/-- Classification of an `HTTPError` into the typed taxonomy (client.py
lines 62-92), as a pure function of the optional response attached to the
error. -/
def classifyHTTPError (url : String) (resp : Option Response) : APIError :=
  let status_code : Option Nat := resp.map (fun r => r.status_code)
  let error_details := errorDetailsOf resp
  if status_code = Option.some 401 then
    .authentication error_details
  else if status_code = Option.some 403 then
    .forbidden error_details
  else
    match status_code with
    | Option.some s =>
      if s ≠ 0 ∧ 400 ≤ s ∧ s < 500 then
        .clientRequest (clientErrorMsg s error_details) s error_details
      else if s ≠ 0 ∧ 500 ≤ s ∧ s < 600 then
        .serverError ("Server error " ++ toString s) s error_details
      else
        .generic ("HTTP Error " ++ httpStatusStr (Option.some s) ++ " for " ++ url)
          (Option.some s) error_details
    | Option.none =>
      .generic ("HTTP Error " ++ httpStatusStr Option.none ++ " for " ++ url)
        Option.none error_details

/-- The text of the `JSONDecodeError` a successful response with an
undecodable body produces; the exact wording is environment dependent and
modelled representatively (no claim inspects it). -/
def jsonDecodeExcText : String := "Expecting value: line 1 column 1 (char 0)"

/-- Processing of one transport outcome by `_request` (client.py lines
51-96): `raise_for_status` raises an `HTTPError` exactly for status codes
in [400,599], which the except-block classifies; otherwise the raw
response, `None` on 204, or the JSON-decoded body is returned.  An
undecodable body on the success path raises a JSON decode error that the
`RequestException` handler wraps generically. -/
def dispatchResult (url : String) (parse_json : Bool) (oc : Outcome) :
    Except APIError RetVal :=
  match oc with
  | .requestException emsg =>
    .error (.generic ("Request failed for " ++ url ++ ": " ++ emsg)
      Option.none Py.none)
  | .response r =>
    if 400 ≤ r.status_code ∧ r.status_code < 600 then
      .error (classifyHTTPError url (Option.some r))
    else if parse_json = false then
      .ok (.raw r)
    else if r.status_code = 204 then
      .ok (.py .none)
    else
      match r.jsonResult with
      | Option.some v => .ok (.py v)
      | Option.none =>
        .error (.generic ("Request failed for " ++ url ++ ": " ++ jsonDecodeExcText)
          Option.none Py.none)

/-- The single `requests.request` invocation `_request` performs
(client.py lines 46-52): URL from root and path, base headers copied and
updated with the per-call overrides. -/
def buildRequestArgs (c : Client) (method path : String) (hdrs : Option HDict)
    (params : HDict) (files : Option (String × List Nat × String))
    (jsonBody : Option Py) : RequestArgs :=
  { method := method,
    url := c.root_url ++ path,
    headers := match hdrs with
      | Option.some h => dictUpdate c.headers h
      | Option.none => c.headers,
    params := params,
    files := files,
    jsonBody := jsonBody }

/-- Observable outcome of one dispatcher call: its result, the network
requests it performed in order, and the client state after the call. -/
structure DispatchOut where
  result : Except APIError RetVal
  sent : List RequestArgs
  final : Client

/-- `DocumentExtractorAPIClient._request` (client.py lines 45-96): build
the request, perform exactly one round-trip via `net`, and classify the
outcome.  The client state is read, never written. -/
def _request (c : Client) (method path : String) (parse_json : Bool)
    (hdrs : Option HDict) (params : HDict)
    (files : Option (String × List Nat × String)) (jsonBody : Option Py)
    (net : RequestArgs → Outcome) : DispatchOut :=
  let args := buildRequestArgs c method path hdrs params files jsonBody
  { result := dispatchResult (c.root_url ++ path) parse_json (net args),
    sent := [args],
    final := c }

/-- Modelled from the spec: the result-format enum
`RunResultResponseFormat` comes from `documentextractor_commons` (outside
this repository's source).  The spec names three supported formats —
structured/JSON, CSV, spreadsheet — whose `.value` is the result media
type sent as the `Accept` header; `other` models any further value a
caller passes, Python being dynamically typed. -/
inductive RunResultResponseFormat where
| JSON : RunResultResponseFormat
| CSV : RunResultResponseFormat
| EXCEL : RunResultResponseFormat
| other (v : String) : RunResultResponseFormat

/-- The media type a format member carries (`accept_format.value`,
client.py line 186). -/
def RunResultResponseFormat.value : RunResultResponseFormat → String
| .JSON => "application/json"
| .CSV => "text/csv"
| .EXCEL => "application/vnd.openxmlformats-officedocument.spreadsheetml.sheet"
| .other v => v

/-- Python `str(accept_format)` as interpolated into the unsupported-format
message (client.py line 205): the qualified member name for enum members,
the value itself for a non-enum value. -/
def RunResultResponseFormat.pyStr : RunResultResponseFormat → String
| .JSON => "RunResultResponseFormat.JSON"
| .CSV => "RunResultResponseFormat.CSV"
| .EXCEL => "RunResultResponseFormat.EXCEL"
| .other v => v

/-- Modelled from the spec: the `RunResult` transfer object from
`documentextractor_commons` (outside this repository's source) — "the
payload of a completed Run: extracted structured data plus an error
list". -/
structure RunResult where
  data : Py
  errors : List Py

/-- The message of a pydantic `ValidationError`; the precise wording is
pydantic's and is modelled representatively. -/
def pydanticValidationText (model : String) : String :=
  "validation error for " ++ model

/-- Modelled from the spec: pydantic construction `RunResult(**kvs)` — the
typed object when the decoded dict carries the expected fields, a
`ValidationError` (a `ValueError` subclass) otherwise. -/
def RunResult.ofDict (kvs : List (String × Py)) : Except String RunResult :=
  match lookupKey kvs "data", lookupKey kvs "errors" with
  | Option.some d, Option.some (.list es) => .ok { data := d, errors := es }
  | _, _ => .error (pydanticValidationText "RunResult")

/-- The three result encodings `get_workflow_run_results` can return:
typed object, body text, body bytes. -/
inductive RunResultValue where
| structured (r : RunResult) : RunResultValue
| text (s : String) : RunResultValue
| binary (b : List Nat) : RunResultValue

/-- Observable outcome of one endpoint call: its result, the network
requests performed in order, and the client state after the call. -/
structure CallOut (α : Type) where
  result : Except PyError α
  sent : List RequestArgs
  final : Client

/-- The text of the `TypeError` raised by `f(**v)` when `v` is not a
mapping; the precise CPython wording is modelled representatively. -/
def typeErrorStarStarText : String :=
  "argument after ** must be a mapping"

/-- The results path (client.py line 180). -/
def resultsPath (workflow_uuid : String) (run_num : Nat) : String :=
  "/v1/workflows/" ++ workflow_uuid ++ "/runs/" ++ toString run_num ++ "/results"

/-- The query parameters (client.py lines 181-183): `format_option` is
added only when truthy — `None` and the empty string are both omitted. -/
def resultsParams (format_option : Option String) : HDict :=
  match format_option with
  | Option.some s => if s.isEmpty then [] else [("format_option", s)]
  | Option.none => []

/-- The per-call headers (client.py lines 185-186): a copy of the base
headers with `Accept` set to the requested format's media type. -/
def resultsHeaders (c : Client) (accept_format : RunResultResponseFormat) : HDict :=
  dictSet c.headers "Accept" accept_format.value

/-- The one request `get_workflow_run_results` dispatches (client.py line
188): GET, results path, JSON parsing suppressed. -/
def resultsArgs (c : Client) (workflow_uuid : String) (run_num : Nat)
    (accept_format : RunResultResponseFormat) (format_option : Option String) :
    RequestArgs :=
  buildRequestArgs c "GET" (resultsPath workflow_uuid run_num)
    (Option.some (resultsHeaders c accept_format))
    (resultsParams format_option) Option.none Option.none

/-- The response handling of `get_workflow_run_results` (client.py lines
190-205), applied to the dispatcher's result.  A dispatcher error
propagates; the structured branch decodes JSON and builds `RunResult`,
turning a decode failure or a non-mapping body into a `ValueError` and a
pydantic validation failure into a `ValidationError` (itself a
`ValueError`); CSV returns the text, spreadsheet the bytes; any other
format raises a `ValueError` naming it.  The `.py` case cannot arise with
`parse_json` unset (`dispatch_raw_of_not_parse` below). -/
def runResultOf (accept_format : RunResultResponseFormat)
    (res : Except APIError RetVal) : Except PyError RunResultValue :=
  match res with
  | .error e => .error (.apiError e)
  | .ok (.py _) => .error (.valueError "unreachable")
  | .ok (.raw response) =>
    match accept_format with
    | .JSON =>
      match response.jsonResult with
      | Option.none =>
        .error (.valueError "Failed to decode JSON response for RunResult.")
      | Option.some json_data =>
        match json_data with
        | .dict kvs =>
          match RunResult.ofDict kvs with
          | .ok rr => .ok (.structured rr)
          | .error emsg => .error (.valueError emsg)
        | _ =>
          .error (.valueError ("Mismatched JSON structure for RunResult: "
            ++ json_data.format ++ ". Error: " ++ typeErrorStarStarText))
    | .CSV => .ok (.text response.text)
    | .EXCEL => .ok (.binary response.content)
    | .other v =>
      .error (.valueError ("Unsupported accept_format: "
        ++ RunResultResponseFormat.pyStr (.other v)))

/-- `DocumentExtractorAPIClient.get_workflow_run_results` (client.py lines
173-205): dispatch once with JSON parsing suppressed and the `Accept`
header set to the requested format, then shape the response by format. -/
def get_workflow_run_results (c : Client) (workflow_uuid : String)
    (run_num : Nat) (accept_format : RunResultResponseFormat)
    (format_option : Option String) (net : RequestArgs → Outcome) :
    CallOut RunResultValue :=
  let d := _request c "GET" (resultsPath workflow_uuid run_num) false
    (Option.some (resultsHeaders c accept_format)) (resultsParams format_option)
    Option.none Option.none net
  { result := runResultOf accept_format d.result,
    sent := d.sent,
    final := c }

/-- Modelled from the spec: the `FileResponse` transfer object from
`documentextractor_commons` (outside this repository's source) — "File:
identifier (opaque unique token), name, content metadata"; the full
payload is retained. -/
structure FileResponse where
  id : Py
  name : Py
  payload : List (String × Py)

/-- Modelled from the spec: pydantic construction `FileResponse(**kvs)`. -/
def FileResponse.ofDict (kvs : List (String × Py)) : Except String FileResponse :=
  match lookupKey kvs "id", lookupKey kvs "name" with
  | Option.some i, Option.some n => .ok { id := i, name := n, payload := kvs }
  | _, _ => .error (pydanticValidationText "FileResponse")

/-- The response handling of `upload_file` (client.py line 125):
`FileResponse(**response_data)` — a `TypeError` when the decoded body is
not a mapping, a pydantic `ValidationError` when its shape mismatches.
The `.raw` case cannot arise with `parse_json` set. -/
def fileResponseOf (res : Except APIError RetVal) : Except PyError FileResponse :=
  match res with
  | .error e => .error (.apiError e)
  | .ok (.raw _) => .error (.valueError "unreachable")
  | .ok (.py v) =>
    match v with
    | .dict kvs =>
      match FileResponse.ofDict kvs with
      | .ok fr => .ok fr
      | .error emsg => .error (.valueError emsg)
    | _ => .error (.typeError typeErrorStarStarText)

/-- The body of `upload_file` (client.py lines 110-125) before the result
is packaged: the result together with the dispatcher invocations made.
`fs` models the filesystem (`open(file_path, "rb")`, `none` for a missing
file whose `FileNotFoundError` propagates) and `guessMime` models
`mimetypes.guess_type`. -/
def uploadCore (c : Client) (file_path : String)
    (file_content : Option (List Nat)) (filename : Option String)
    (fs : String → Option (List Nat)) (guessMime : String → Option String)
    (net : RequestArgs → Outcome) :
    Except PyError FileResponse × List RequestArgs :=
  if file_content.isSome && filename.isNone then
    (.error (.valueError "filename must be provided if file_content is specified."),
     [])
  else
    let fname := match filename with
      | Option.some f =>
        if f.isEmpty then (file_path.splitOn "/").getLastD "" else f
      | Option.none => (file_path.splitOn "/").getLastD ""
    let mime := (guessMime (match file_content with
      | Option.none => file_path
      | Option.some _ => fname)).getD "application/octet-stream"
    match file_content with
    | Option.some bytes =>
      let d := _request c "POST" "/v1/files/" true Option.none []
        (Option.some (fname, bytes, mime)) Option.none net
      (fileResponseOf d.result, d.sent)
    | Option.none =>
      match fs file_path with
      | Option.none =>
        (.error (.osError ("No such file or directory: \x27"
          ++ file_path ++ "\x27")), [])
      | Option.some bytes =>
        let d := _request c "POST" "/v1/files/" true Option.none []
          (Option.some (fname, bytes, mime)) Option.none net
        (fileResponseOf d.result, d.sent)

/-- `DocumentExtractorAPIClient.upload_file` (client.py lines 103-125):
guard the caller contract, derive filename and MIME type, dispatch one
multipart POST, and build the typed response.  The client state is read,
never written. -/
def upload_file (c : Client) (file_path : String)
    (file_content : Option (List Nat)) (filename : Option String)
    (fs : String → Option (List Nat)) (guessMime : String → Option String)
    (net : RequestArgs → Outcome) : CallOut FileResponse :=
  let rc := uploadCore c file_path file_content filename fs guessMime net
  { result := rc.1, sent := rc.2, final := c }

/-- Substring relation on strings, by data lists. -/
abbrev strContains (hay needle : String) : Prop :=
  needle.data <:+: hay.data

theorem strContains_suffix (a x : String) : strContains (a ++ x) x :=
  ⟨a.data, [], by simp [String.data_append]⟩

theorem strContains_mid (a x b : String) : strContains (a ++ x ++ b) x :=
  ⟨a.data, b.data, by simp [String.data_append]⟩

/-- With JSON parsing suppressed, a successful dispatch always hands back
the raw response; the `.py` branch of `runResultOf` is unreachable. -/
theorem dispatch_raw_of_not_parse (url : String) (oc : Outcome)
    (res : RetVal) (h : dispatchResult url false oc = .ok res) :
    ∃ r : Response, res = .raw r := by
  unfold dispatchResult at h
  match oc with
  | .requestException emsg => simp at h
  | .response r =>
    simp only at h
    split at h
    · simp at h
    · simp at h
      exact ⟨r, h.symm⟩

/-- Every branch of the classifier carries the best-effort parsed body as
the error details. -/
theorem classify_details (url : String) (resp : Option Response) :
    (classifyHTTPError url resp).details = errorDetailsOf resp := by
  cases resp with
  | none => rfl
  | some r =>
    unfold classifyHTTPError
    dsimp only [Option.map]
    split
    · rfl
    · split
      · rfl
      · split
        · rfl
        · split
          · rfl
          · rfl

theorem classify_401 (url : String) (r : Response)
    (h : r.status_code = 401) :
    classifyHTTPError url (Option.some r) =
      .authentication (errorDetailsOf (Option.some r)) := by
  unfold classifyHTTPError
  dsimp only [Option.map]
  rw [if_pos (by simp [h])]

theorem classify_403 (url : String) (r : Response)
    (h : r.status_code = 403) :
    classifyHTTPError url (Option.some r) =
      .forbidden (errorDetailsOf (Option.some r)) := by
  unfold classifyHTTPError
  dsimp only [Option.map]
  rw [if_neg (by simp [h]), if_pos (by simp [h])]

theorem classify_4xx (url : String) (r : Response)
    (h4 : 400 ≤ r.status_code) (h5 : r.status_code < 500)
    (h1 : r.status_code ≠ 401) (h3 : r.status_code ≠ 403) :
    classifyHTTPError url (Option.some r) =
      .clientRequest (clientErrorMsg r.status_code (errorDetailsOf (Option.some r)))
        r.status_code (errorDetailsOf (Option.some r)) := by
  unfold classifyHTTPError
  dsimp only [Option.map]
  rw [if_neg (by simp [h1]), if_neg (by simp [h3]),
    if_pos ⟨by omega, h4, h5⟩]

theorem classify_5xx (url : String) (r : Response)
    (h5 : 500 ≤ r.status_code) (h6 : r.status_code < 600) :
    classifyHTTPError url (Option.some r) =
      .serverError ("Server error " ++ toString r.status_code)
        r.status_code (errorDetailsOf (Option.some r)) := by
  unfold classifyHTTPError
  dsimp only [Option.map]
  rw [if_neg (by simp; omega), if_neg (by simp; omega),
    if_neg (by omega), if_pos ⟨by omega, h5, h6⟩]

theorem classify_out_of_range (url : String) (r : Response)
    (h : r.status_code < 400 ∨ 600 ≤ r.status_code) :
    classifyHTTPError url (Option.some r) =
      .generic ("HTTP Error " ++ httpStatusStr (Option.some r.status_code)
          ++ " for " ++ url)
        (Option.some r.status_code) (errorDetailsOf (Option.some r)) := by
  unfold classifyHTTPError
  dsimp only [Option.map]
  rw [if_neg (by simp; omega), if_neg (by simp; omega),
    if_neg (by omega), if_neg (by omega)]

theorem classify_no_response (url : String) :
    classifyHTTPError url Option.none =
      .generic ("HTTP Error Unknown for " ++ url) Option.none Py.none := by
  rfl

/-- An error-range response is always classified: the dispatcher reports
the classifier's typed error. -/
theorem dispatch_error_range (url : String) (pj : Bool) (r : Response)
    (h4 : 400 ≤ r.status_code) (h6 : r.status_code < 600) :
    dispatchResult url pj (.response r) =
      .error (classifyHTTPError url (Option.some r)) := by
  unfold dispatchResult
  dsimp only
  rw [if_pos ⟨h4, h6⟩]

/-- A response outside the error range with JSON parsing suppressed is
returned raw. -/
theorem dispatch_raw (url : String) (r : Response)
    (h : ¬(400 ≤ r.status_code ∧ r.status_code < 600)) :
    dispatchResult url false (.response r) = .ok (.raw r) := by
  unfold dispatchResult
  dsimp only
  rw [if_neg h, if_pos rfl]

/-- A present binding overrides: setting a key makes lookup find the new
value. -/
theorem lookupKey_dictSet_self (d : HDict) (k v : String) :
    lookupKey (dictSet d k v) k = Option.some v := by
  induction d with
  | nil => simp [dictSet, lookupKey]
  | cons hd t ih =>
    obtain ⟨k', v'⟩ := hd
    by_cases h : k' = k
    · simp [dictSet, h, lookupKey]
    · simp [dictSet, h, lookupKey, ih]

/-- Setting one key leaves lookups at other keys unchanged. -/
theorem lookupKey_dictSet_ne (d : HDict) (k k' v : String) (h : k' ≠ k) :
    lookupKey (dictSet d k' v) k = lookupKey d k := by
  induction d with
  | nil => simp [dictSet, lookupKey, h]
  | cons hd t ih =>
    obtain ⟨k0, v0⟩ := hd
    by_cases h0 : k0 = k'
    · subst h0
      simp [dictSet, lookupKey, h]
    · simp only [dictSet, h0, if_false, lookupKey]
      by_cases h1 : k0 = k
      · simp [h1]
      · simp [h1, ih]

theorem lookupKey_eq_none_of_not_mem {α : Type} (o : List (String × α))
    (k : String) (h : k ∉ o.map Prod.fst) : lookupKey o k = Option.none := by
  induction o with
  | nil => rfl
  | cons hd t ih =>
    obtain ⟨k0, v0⟩ := hd
    simp only [List.map_cons, List.mem_cons] at h
    push_neg at h
    simp only [lookupKey]
    rw [if_neg (by simpa using (Ne.symm h.1))]
    exact ih h.2

/-- Dictionary update resolves lookups to the override when its key is
present and to the base dictionary otherwise, provided the override has
no duplicate keys (Python dictionaries cannot). -/
theorem lookupKey_dictUpdate (d o : HDict) (k : String)
    (h : (o.map Prod.fst).Nodup) :
    lookupKey (dictUpdate d o) k =
      match lookupKey o k with
      | Option.some v => Option.some v
      | Option.none => lookupKey d k := by
  induction o generalizing d with
  | nil => rfl
  | cons hd t ih =>
    obtain ⟨a, b⟩ := hd
    simp only [List.map_cons, List.nodup_cons] at h
    have step : dictUpdate d ((a, b) :: t) = dictUpdate (dictSet d a b) t := rfl
    rw [step, ih (dictSet d a b) h.2]
    by_cases hk : a = k
    · subst hk
      have ht : lookupKey t a = (Option.none : Option String) :=
        lookupKey_eq_none_of_not_mem t a h.1
      simp [lookupKey, ht, lookupKey_dictSet_self]
    · simp only [lookupKey, hk, if_false]
      cases lookupKey t k with
      | none => simp [lookupKey_dictSet_ne d k a b hk]
      | some v => simp

/-- A dict whose looked-up value is truthy is nonempty, hence itself
truthy. -/
theorem dict_truthy_of_get_truthy (kvs : List (String × Py)) (k : String)
    (h : ((Py.dict kvs).get k).truthy = true) : (Py.dict kvs).truthy = true := by
  cases kvs with
  | nil => simp [Py.get, lookupKey, Option.getD, Py.truthy] at h
  | cons hd t => simp [Py.truthy]

/-- A substring of a string is a substring of any right-extension. -/
theorem strContains_append_of (a b x : String) (h : strContains a x) :
    strContains (a ++ b) x := by
  obtain ⟨s, t, hst⟩ := h
  exact ⟨s, t ++ b.data, by rw [String.data_append, ← hst]; simp⟩

/-- The dispatcher's result is its outcome processing applied to the one
request it builds. -/
theorem request_result_eq (c : Client) (m p : String) (pj : Bool)
    (hdrs : Option HDict) (params : HDict)
    (files : Option (String × List Nat × String)) (jb : Option Py)
    (net : RequestArgs → Outcome) (oc : Outcome)
    (h : net (buildRequestArgs c m p hdrs params files jb) = oc) :
    (_request c m p pj hdrs params files jb net).result =
      dispatchResult (c.root_url ++ p) pj oc := by
  unfold _request
  dsimp only
  rw [h]

/-- The result of run-result retrieval is the format shaping applied to
the dispatch of its one request. -/
theorem results_result_eq (c : Client) (wu : String) (rn : Nat)
    (af : RunResultResponseFormat) (fo : Option String)
    (net : RequestArgs → Outcome) (oc : Outcome)
    (h : net (resultsArgs c wu rn af fo) = oc) :
    (get_workflow_run_results c wu rn af fo net).result =
      runResultOf af (dispatchResult (c.root_url ++ resultsPath wu rn) false oc) := by
  unfold get_workflow_run_results _request
  dsimp only
  unfold resultsArgs at h
  rw [h]

/-- A sample client configuration used by concrete evaluations. -/
def sampleClient : Client := mkClient "http://api.example" "k"

/-- A sample successful response whose JSON body carries the RunResult
fields. -/
def okResponse : Response :=
  { status_code := 200,
    text := "col1,col2",
    content := [80, 75, 3, 4],
    jsonResult := Option.some (.dict [("data", .dict []), ("errors", .list [])]) }

/-- A network that answers every request with `okResponse`. -/
def okNet : RequestArgs → Outcome := fun _ => .response okResponse

/-- A 304 Not Modified response with a decodable body: non-2xx, yet
outside the range `raise_for_status` raises for. -/
def resp304 : Response :=
  { status_code := 304, text := "", content := [],
    jsonResult := Option.some (.dict []) }

/-- A 401 response with an undecodable body. -/
def resp401 : Response :=
  { status_code := 401, text := "denied", content := [],
    jsonResult := Option.none }

/-- A 204 No Content response. -/
def resp204 : Response :=
  { status_code := 204, text := "", content := [], jsonResult := Option.none }

/-- A 404 response whose JSON body carries a truthy `detail` field. -/
def resp404 : Response :=
  { status_code := 404, text := "", content := [],
    jsonResult := Option.some (.dict [("detail", .str "Not found")]) }

/-- A 500 response with an undecodable body. -/
def resp500 : Response :=
  { status_code := 500, text := "boom", content := [],
    jsonResult := Option.none }

/-- A 411 response whose JSON body carries a falsy `detail` field. -/
def respFalsyDetail : Response :=
  { status_code := 411, text := "", content := [],
    jsonResult := Option.some (.dict [("detail", .int 0)]) }

/-- A 422 response whose body is the JSON string `"oops"`. -/
def respJsonStr : Response :=
  { status_code := 422, text := "\x22oops\x22", content := [],
    jsonResult := Option.some (.str "oops") }

/-- C4: a call to `upload_file` with `file_content` supplied and
`filename` unsupplied raises the caller-contract value error and the
dispatcher is never invoked — no network call is performed. -/
theorem upload_without_filename_no_network
    (c : Client) (fp : String) (bytes : List Nat)
    (fs : String → Option (List Nat)) (gm : String → Option String)
    (net : RequestArgs → Outcome) :
    (upload_file c fp (Option.some bytes) Option.none fs gm net).result =
      .error (.valueError
        "filename must be provided if file_content is specified.") ∧
    (upload_file c fp (Option.some bytes) Option.none fs gm net).sent = [] :=
  ⟨rfl, rfl⟩

/-- C10: every modelled public operation — the dispatcher, run-result
retrieval and file upload — leaves the client's configured state
(root URL, API key and base header dictionary) unchanged: headers are
copied before per-call merging, never mutated. -/
theorem client_state_unchanged
    (c : Client) (m p : String) (pj : Bool) (hdrs : Option HDict)
    (params : HDict) (files : Option (String × List Nat × String))
    (jb : Option Py) (net : RequestArgs → Outcome)
    (wu : String) (rn : Nat) (af : RunResultResponseFormat) (fo : Option String)
    (fp : String) (fc : Option (List Nat)) (fn : Option String)
    (fs : String → Option (List Nat)) (gm : String → Option String) :
    (_request c m p pj hdrs params files jb net).final = c ∧
    (get_workflow_run_results c wu rn af fo net).final = c ∧
    (upload_file c fp fc fn fs gm net).final = c :=
  ⟨rfl, rfl, rfl⟩

/-- C2 counterexample: a 304 Not Modified response is non-2xx, yet the
dispatcher classifies nothing — `raise_for_status` only raises for
statuses in [400,599], so the decoded body is returned as a success. -/
theorem non2xx_response_not_always_classified :
    (_request sampleClient "GET" "/v1/files/" true Option.none [] Option.none
        Option.none (fun _ => .response resp304)).result =
      .ok (.py (.dict [])) := rfl

/-- C2 (amended): for a response with status in [400,599] the dispatcher's
classification is exactly 401 → authentication, 403 → authorization, any
other 4xx → client request failure with that status, 5xx → server failure
with that status; the classifier maps a missing status code, or one
outside [400,599], to the generic API failure.  A response with a non-2xx
status outside [400,599] (such as 304) is not classified as a failure at
all. -/
theorem status_classification_taxonomy
    (c : Client) (m p : String) (pj : Bool) (hdrs : Option HDict)
    (params : HDict) (files : Option (String × List Nat × String))
    (jb : Option Py) (net : RequestArgs → Outcome) (r : Response)
    (hnet : net (buildRequestArgs c m p hdrs params files jb) = .response r) :
    (r.status_code = 401 →
      (_request c m p pj hdrs params files jb net).result =
        .error (.authentication (errorDetailsOf (Option.some r)))) ∧
    (r.status_code = 403 →
      (_request c m p pj hdrs params files jb net).result =
        .error (.forbidden (errorDetailsOf (Option.some r)))) ∧
    (400 ≤ r.status_code → r.status_code < 500 →
      r.status_code ≠ 401 → r.status_code ≠ 403 →
      (_request c m p pj hdrs params files jb net).result =
        .error (.clientRequest
          (clientErrorMsg r.status_code (errorDetailsOf (Option.some r)))
          r.status_code (errorDetailsOf (Option.some r)))) ∧
    (500 ≤ r.status_code → r.status_code < 600 →
      (_request c m p pj hdrs params files jb net).result =
        .error (.serverError ("Server error " ++ toString r.status_code)
          r.status_code (errorDetailsOf (Option.some r)))) ∧
    (∀ url : String, classifyHTTPError url Option.none =
      .generic ("HTTP Error Unknown for " ++ url) Option.none Py.none) ∧
    (∀ (url : String) (r2 : Response),
      r2.status_code < 400 ∨ 600 ≤ r2.status_code →
      classifyHTTPError url (Option.some r2) =
        .generic ("HTTP Error " ++ httpStatusStr (Option.some r2.status_code)
            ++ " for " ++ url)
          (Option.some r2.status_code) (errorDetailsOf (Option.some r2))) := by
  have hres := request_result_eq c m p pj hdrs params files jb net
    (.response r) hnet
  refine ⟨?_, ?_, ?_, ?_, classify_no_response, ?_⟩
  · intro h
    rw [hres, dispatch_error_range _ _ _ (by omega) (by omega),
      classify_401 _ _ h]
  · intro h
    rw [hres, dispatch_error_range _ _ _ (by omega) (by omega),
      classify_403 _ _ h]
  · intro h4 h5 h1 h3
    rw [hres, dispatch_error_range _ _ _ (by omega) (by omega),
      classify_4xx _ _ h4 h5 h1 h3]
  · intro h5 h6
    rw [hres, dispatch_error_range _ _ _ (by omega) (by omega),
      classify_5xx _ _ h5 h6]
  · intro url r2 h
    exact classify_out_of_range url r2 h

/-- C2 witness: a concrete 401 response is classified as an
authentication failure. -/
theorem status_classification_taxonomy_witness :
    (_request sampleClient "GET" "/p" true Option.none [] Option.none
        Option.none (fun _ => .response resp401)).result =
      .error (.authentication (errorDetailsOf (Option.some resp401))) :=
  (status_classification_taxonomy sampleClient "GET" "/p" true Option.none []
    Option.none Option.none (fun _ => .response resp401) resp401 rfl).1 rfl

/-- C5: for a dispatcher call receiving a 2xx response — with the
parse-JSON flag set and a decodable body, the decoded body is returned
unless the status is 204; a 204 returns Python `None` (not an empty
object); with the flag unset the raw response handle is returned
untouched. -/
theorem success_2xx_handling
    (c : Client) (m p : String) (hdrs : Option HDict) (params : HDict)
    (files : Option (String × List Nat × String)) (jb : Option Py)
    (net : RequestArgs → Outcome) (r : Response)
    (hnet : net (buildRequestArgs c m p hdrs params files jb) = .response r)
    (h2 : 200 ≤ r.status_code) (h3 : r.status_code < 300) :
    (∀ v : Py, r.jsonResult = Option.some v → r.status_code ≠ 204 →
      (_request c m p true hdrs params files jb net).result = .ok (.py v)) ∧
    (r.status_code = 204 →
      (_request c m p true hdrs params files jb net).result = .ok (.py .none) ∧
      Py.none ≠ Py.dict []) ∧
    (_request c m p false hdrs params files jb net).result = .ok (.raw r) := by
  have hresT := request_result_eq c m p true hdrs params files jb net
    (.response r) hnet
  have hresF := request_result_eq c m p false hdrs params files jb net
    (.response r) hnet
  refine ⟨?_, ?_, ?_⟩
  · intro v hv h204
    rw [hresT]
    unfold dispatchResult
    dsimp only
    rw [if_neg (by omega), if_neg (by simp), if_neg h204, hv]
  · intro h204
    refine ⟨?_, fun h => Py.noConfusion h⟩
    rw [hresT]
    unfold dispatchResult
    dsimp only
    rw [if_neg (by omega), if_neg (by simp), if_pos h204]
  · rw [hresF, dispatch_raw _ _ (by omega)]

/-- C5 witness: a concrete 204 response yields Python `None`, which is not
the empty object. -/
theorem success_2xx_handling_witness :
    (_request sampleClient "DELETE" "/v1/files/x" true Option.none []
        Option.none Option.none (fun _ => .response resp204)).result =
      .ok (.py .none) ∧
    Py.none ≠ Py.dict [] :=
  (success_2xx_handling sampleClient "DELETE" "/v1/files/x" Option.none []
    Option.none Option.none (fun _ => .response resp204) resp204 rfl
    (by decide) (by decide)).2.1 rfl

/-- C9: constructing the typed error for a non-2xx response never fails on
the body — a JSON-decodable body is carried parsed as the error details,
any other body is carried as its raw text, and the raised typed error
carries exactly those details. -/
theorem error_details_best_effort
    (c : Client) (m p : String) (pj : Bool) (hdrs : Option HDict)
    (params : HDict) (files : Option (String × List Nat × String))
    (jb : Option Py) (net : RequestArgs → Outcome) (r : Response)
    (hnet : net (buildRequestArgs c m p hdrs params files jb) = .response r)
    (h4 : 400 ≤ r.status_code) (h6 : r.status_code < 600) :
    (errorDetailsOf (Option.some r) =
      match r.jsonResult with
      | Option.some v => v
      | Option.none => .str r.text) ∧
    ∃ e : APIError,
      (_request c m p pj hdrs params files jb net).result = .error e ∧
      e.details = errorDetailsOf (Option.some r) := by
  refine ⟨rfl, classifyHTTPError (c.root_url ++ p) (Option.some r), ?_,
    classify_details _ _⟩
  rw [request_result_eq c m p pj hdrs params files jb net (.response r) hnet,
    dispatch_error_range _ _ _ h4 h6]

/-- C9 witness: a concrete 500 response with an undecodable body raises a
typed error carrying the raw text as details. -/
theorem error_details_best_effort_witness :
    (errorDetailsOf (Option.some resp500) =
      match resp500.jsonResult with
      | Option.some v => v
      | Option.none => .str resp500.text) ∧
    ∃ e : APIError,
      (_request sampleClient "GET" "/p" true Option.none [] Option.none
          Option.none (fun _ => .response resp500)).result = .error e ∧
      e.details = errorDetailsOf (Option.some resp500) :=
  error_details_best_effort sampleClient "GET" "/p" true Option.none []
    Option.none Option.none (fun _ => .response resp500) resp500 rfl
    (by decide) (by decide)

/-- C3 counterexample: a 411 response whose body is the JSON object
`detail: 0` — a JSON object containing a `detail` field — produces the
bare generic message, which does not contain the string form of the
detail value; and a 422 response whose body is the JSON string `oops` —
JSON without a `detail` field — produces a message that is not the
generic form. -/
theorem client_error_message_counterexample :
    classifyHTTPError "u" (Option.some respFalsyDetail) =
      .clientRequest "Client error 411" 411 (.dict [("detail", .int 0)]) ∧
    ¬ strContains "Client error 411" "0" ∧
    classifyHTTPError "u" (Option.some respJsonStr) =
      .clientRequest "Client error 422: oops" 422 (.str "oops") ∧
    "Client error 422: oops" ≠ "Client error 422" := by
  refine ⟨rfl, by decide, rfl, by decide⟩

/-- C3 (amended): for a client request failure (status in [400,499]
excluding 401/403) the message is built from the best-effort parsed body:
a JSON-object body whose `detail` field is truthy yields a message
containing the string form of that field and the status code; a string
body (raw non-JSON text, or a JSON-decoded string) shorter than 100
characters yields a message containing that string; in every other case —
including a falsy `detail` value and strings of 100 or more characters —
the message is exactly the generic `Client error` form. -/
theorem client_error_message_forms
    (url : String) (r : Response)
    (h4 : 400 ≤ r.status_code) (h5 : r.status_code < 500)
    (h1 : r.status_code ≠ 401) (h3 : r.status_code ≠ 403) :
    classifyHTTPError url (Option.some r) =
      .clientRequest (clientErrorMsg r.status_code (errorDetailsOf (Option.some r)))
        r.status_code (errorDetailsOf (Option.some r)) ∧
    (∀ kvs : List (String × Py), errorDetailsOf (Option.some r) = .dict kvs →
      ((Py.dict kvs).get "detail").truthy = true →
      clientErrorMsg r.status_code (.dict kvs) =
        "Client error " ++ toString r.status_code ++ ": "
          ++ ((Py.dict kvs).get "detail").format ∧
      strContains (clientErrorMsg r.status_code (.dict kvs))
        (((Py.dict kvs).get "detail").format) ∧
      strContains (clientErrorMsg r.status_code (.dict kvs))
        (toString r.status_code)) ∧
    (∀ t : String, errorDetailsOf (Option.some r) = .str t → t.length < 100 →
      clientErrorMsg r.status_code (.str t) =
        "Client error " ++ toString r.status_code ++ ": " ++ t ∧
      strContains (clientErrorMsg r.status_code (.str t)) t) ∧
    (∀ d : Py, errorDetailsOf (Option.some r) = d →
      (d.truthy && d.isDict && (d.get "detail").truthy) = false →
      (d.isStr && decide (d.strLen < 100)) = false →
      clientErrorMsg r.status_code d =
        "Client error " ++ toString r.status_code) := by
  refine ⟨classify_4xx url r h4 h5 h1 h3, ?_, ?_, ?_⟩
  · intro kvs hkvs hdet
    have htr := dict_truthy_of_get_truthy kvs "detail" hdet
    have hmsg : clientErrorMsg r.status_code (.dict kvs) =
        "Client error " ++ toString r.status_code ++ ": "
          ++ ((Py.dict kvs).get "detail").format := by
      unfold clientErrorMsg
      rw [if_pos (by simp [htr, hdet, Py.isDict])]
    refine ⟨hmsg, ?_, ?_⟩
    · rw [hmsg]
      exact strContains_suffix _ _
    · rw [hmsg]
      exact strContains_append_of _ _ _
        (strContains_mid "Client error " (toString r.status_code) ": ")
  · intro t ht hlen
    have hmsg : clientErrorMsg r.status_code (.str t) =
        "Client error " ++ toString r.status_code ++ ": " ++ t := by
      unfold clientErrorMsg
      rw [if_neg (by simp [Py.isDict]),
        if_pos (by simp [Py.isStr, Py.strLen, hlen])]
      rfl
    exact ⟨hmsg, by rw [hmsg]; exact strContains_suffix _ _⟩
  · intro d hd hc1 hc2
    unfold clientErrorMsg
    rw [if_neg (by simp [hc1]), if_neg (by simp [hc2])]

/-- C3 witness: a concrete 404 response whose body carries a truthy
`detail` field produces the detailed message. -/
theorem client_error_message_forms_witness :
    clientErrorMsg resp404.status_code (.dict [("detail", .str "Not found")]) =
      "Client error " ++ toString resp404.status_code ++ ": "
        ++ ((Py.dict [("detail", .str "Not found")]).get "detail").format :=
  ((client_error_message_forms "u" resp404 (by decide) (by decide)
    (by decide) (by decide)).2.1 [("detail", .str "Not found")] rfl rfl).1

/-- C6: a successful (2xx) result retrieval with format CSV returns the
response body text unmodified, and with format spreadsheet returns the
raw response body bytes unmodified. -/
theorem csv_excel_passthrough
    (c : Client) (wu : String) (rn : Nat) (fo : Option String)
    (net : RequestArgs → Outcome) :
    (∀ r : Response, net (resultsArgs c wu rn .CSV fo) = .response r →
      200 ≤ r.status_code → r.status_code < 300 →
      (get_workflow_run_results c wu rn .CSV fo net).result =
        .ok (.text r.text)) ∧
    (∀ r : Response, net (resultsArgs c wu rn .EXCEL fo) = .response r →
      200 ≤ r.status_code → r.status_code < 300 →
      (get_workflow_run_results c wu rn .EXCEL fo net).result =
        .ok (.binary r.content)) := by
  constructor
  · intro r h h2 h3
    rw [results_result_eq c wu rn .CSV fo net (.response r) h,
      dispatch_raw _ _ (by omega)]
    rfl
  · intro r h h2 h3
    rw [results_result_eq c wu rn .EXCEL fo net (.response r) h,
      dispatch_raw _ _ (by omega)]
    rfl

/-- C6 witness: concrete CSV and spreadsheet retrievals hand the body
back verbatim. -/
theorem csv_excel_passthrough_witness :
    (get_workflow_run_results sampleClient "w" 1 .CSV Option.none okNet).result =
      .ok (.text okResponse.text) ∧
    (get_workflow_run_results sampleClient "w" 1 .EXCEL Option.none okNet).result =
      .ok (.binary okResponse.content) :=
  ⟨(csv_excel_passthrough sampleClient "w" 1 Option.none okNet).1 okResponse
      rfl (by decide) (by decide),
   (csv_excel_passthrough sampleClient "w" 1 Option.none okNet).2 okResponse
      rfl (by decide) (by decide)⟩

/-- C7: structured (JSON-format) retrieval over a 2xx response — a
well-formed body carrying the expected fields yields the typed object
whose fields match the body; an undecodable body yields a value error,
never a transport-classified error; a decoded body whose shape mismatches
the expected fields likewise yields a value error distinct from the
HTTP-layer failures. -/
theorem structured_result_parsing
    (c : Client) (wu : String) (rn : Nat) (fo : Option String)
    (net : RequestArgs → Outcome) (r : Response)
    (hnet : net (resultsArgs c wu rn .JSON fo) = .response r)
    (h2 : 200 ≤ r.status_code) (h3 : r.status_code < 300) :
    (∀ (kvs : List (String × Py)) (d : Py) (es : List Py),
      r.jsonResult = Option.some (.dict kvs) →
      lookupKey kvs "data" = Option.some d →
      lookupKey kvs "errors" = Option.some (.list es) →
      (get_workflow_run_results c wu rn .JSON fo net).result =
        .ok (.structured { data := d, errors := es })) ∧
    (r.jsonResult = Option.none →
      (get_workflow_run_results c wu rn .JSON fo net).result =
        .error (.valueError "Failed to decode JSON response for RunResult.") ∧
      ∀ e : APIError,
        (get_workflow_run_results c wu rn .JSON fo net).result ≠
          .error (.apiError e)) ∧
    (∀ kvs : List (String × Py), r.jsonResult = Option.some (.dict kvs) →
      RunResult.ofDict kvs = .error (pydanticValidationText "RunResult") →
      (get_workflow_run_results c wu rn .JSON fo net).result =
        .error (.valueError (pydanticValidationText "RunResult"))) ∧
    (∀ v : Py, r.jsonResult = Option.some v → v.isDict = false →
      ∃ m : String,
        (get_workflow_run_results c wu rn .JSON fo net).result =
          .error (.valueError m) ∧
        ∀ e : APIError, PyError.valueError m ≠ PyError.apiError e) := by
  have hres : (get_workflow_run_results c wu rn .JSON fo net).result =
      runResultOf .JSON (.ok (.raw r)) := by
    rw [results_result_eq c wu rn .JSON fo net (.response r) hnet,
      dispatch_raw _ _ (by omega)]
  refine ⟨?_, ?_, ?_, ?_⟩
  · intro kvs d es hj hd he
    rw [hres]
    unfold runResultOf
    dsimp only
    rw [hj]
    dsimp only
    unfold RunResult.ofDict
    rw [hd, he]
  · intro hj
    constructor
    · rw [hres]
      unfold runResultOf
      dsimp only
      rw [hj]
    · intro e
      rw [hres]
      unfold runResultOf
      dsimp only
      rw [hj]
      simp
  · intro kvs hj hofd
    rw [hres]
    unfold runResultOf
    dsimp only
    rw [hj]
    dsimp only
    rw [hofd]
  · intro v hj hnd
    refine ⟨"Mismatched JSON structure for RunResult: " ++ v.format
      ++ ". Error: " ++ typeErrorStarStarText, ?_,
      fun e h => PyError.noConfusion h⟩
    rw [hres]
    unfold runResultOf
    dsimp only
    rw [hj]
    cases v with
    | dict kvs => simp [Py.isDict] at hnd
    | none => rfl
    | bool b => rfl
    | int n => rfl
    | str s => rfl
    | list xs => rfl

/-- C7 witness: a concrete well-formed structured body yields the typed
object with matching fields. -/
theorem structured_result_parsing_witness :
    (get_workflow_run_results sampleClient "w" 1 .JSON Option.none okNet).result =
      .ok (.structured { data := .dict [], errors := [] }) :=
  (structured_result_parsing sampleClient "w" 1 Option.none okNet okResponse
    rfl (by decide) (by decide)).1
    [("data", .dict []), ("errors", .list [])] (.dict []) [] rfl rfl rfl

/-- C8: every dispatcher call sends exactly the built request, whose
headers are the base header set merged with the caller-supplied
overrides: for a key the override binds, the override value wins; every
base key the override does not bind is preserved. -/
theorem headers_merge_override
    (c : Client) (m p : String) (pj : Bool) (o : HDict) (params : HDict)
    (files : Option (String × List Nat × String)) (jb : Option Py)
    (net : RequestArgs → Outcome)
    (hnodup : (o.map Prod.fst).Nodup) :
    (_request c m p pj (Option.some o) params files jb net).sent =
      [buildRequestArgs c m p (Option.some o) params files jb] ∧
    (buildRequestArgs c m p (Option.some o) params files jb).headers =
      dictUpdate c.headers o ∧
    (∀ k v : String, lookupKey o k = Option.some v →
      lookupKey (dictUpdate c.headers o) k = Option.some v) ∧
    (∀ k : String, lookupKey o k = Option.none →
      lookupKey (dictUpdate c.headers o) k = lookupKey c.headers k) := by
  refine ⟨rfl, rfl, ?_, ?_⟩
  · intro k v hv
    rw [lookupKey_dictUpdate c.headers o k hnodup, hv]
  · intro k hv
    rw [lookupKey_dictUpdate c.headers o k hnodup, hv]

/-- C8 witness: overriding `Accept` on a concrete client makes the sent
header carry the override value. -/
theorem headers_merge_override_witness :
    lookupKey (dictUpdate (mkClient "http://x" "k").headers
      [("Accept", "text/csv")]) "Accept" = Option.some "text/csv" :=
  (headers_merge_override (mkClient "http://x" "k") "GET" "/p" true
    [("Accept", "text/csv")] [] Option.none Option.none okNet
    (by decide)).2.2.1 "Accept" "text/csv" rfl

/-- C1 counterexample: requesting run results with an unsupported format
performs one network call — the dispatcher is invoked before the format
is checked — while the claim asserts zero network calls. -/
theorem unsupported_format_performs_a_network_call :
    (get_workflow_run_results sampleClient "w" 1 (.other "text/xml")
        Option.none okNet).sent.length = 1 ∧
    (get_workflow_run_results sampleClient "w" 1 (.other "text/xml")
        Option.none okNet).result =
      .error (.valueError "Unsupported accept_format: text/xml") :=
  ⟨rfl, rfl⟩

/-- C1 (amended): requesting run results with an unsupported format
invokes the dispatcher exactly once — the request is sent before the
format dispatch — and, when that request succeeds, reports a value error
naming the unsupported format. -/
theorem unsupported_format_value_error_after_one_dispatch
    (c : Client) (wu : String) (rn : Nat) (v : String) (fo : Option String)
    (net : RequestArgs → Outcome) :
    (get_workflow_run_results c wu rn (.other v) fo net).sent =
      [resultsArgs c wu rn (.other v) fo] ∧
    (∀ r : Response, net (resultsArgs c wu rn (.other v) fo) = .response r →
      200 ≤ r.status_code → r.status_code < 300 →
      (get_workflow_run_results c wu rn (.other v) fo net).result =
        .error (.valueError ("Unsupported accept_format: " ++ v)) ∧
      strContains ("Unsupported accept_format: " ++ v) v) := by
  constructor
  · rfl
  · intro r h h2 h3
    refine ⟨?_, strContains_suffix _ _⟩
    rw [results_result_eq c wu rn (.other v) fo net (.response r) h,
      dispatch_raw _ _ (by omega)]
    rfl

/-- C1 witness: a concrete unsupported format is reported as a value
error naming it after the one dispatch. -/
theorem unsupported_format_value_error_after_one_dispatch_witness :
    (get_workflow_run_results sampleClient "w" 1 (.other "text/xml")
        Option.none okNet).result =
      .error (.valueError ("Unsupported accept_format: " ++ "text/xml")) ∧
    strContains ("Unsupported accept_format: " ++ "text/xml") "text/xml" :=
  (unsupported_format_value_error_after_one_dispatch sampleClient "w" 1
    "text/xml" Option.none okNet).2 okResponse rfl (by decide) (by decide)
